import Mathlib

/-!
Shallow embedding of the authentication core of the InstagramTG bot:
the conversation-flow handlers (`src/handlers/auth_handler.py`), the
message dispatcher (`src/main.py`), the user service blocking/credential
operations (`src/services/user_service.py`), the username validation and
login entry point (`src/services/instagram_service.py`), and the
symmetric-encryption manager (`src/utils/security.py`).

Timestamps are modelled as natural-number seconds (`datetime.utcnow()`
becomes an explicit `now` argument).  Network calls (Instagram profile
checks and the actual Instagram login) are modelled as oracle functions
supplied in an environment record.  Randomness (fresh Fernet keys and
nonces) is likewise passed in explicitly.
-/

namespace InstagramTG

/-! ### Finite maps

The Python code keeps per-user data in dictionaries keyed by the Telegram
user id (`auth_states`) and in database tables with a unique
`telegram_id` column.  Both are modelled as functions `Nat → Option V`:
a dictionary holds at most one value per key by construction, exactly as
a Python dict does. -/

def Map (V : Type) : Type := Nat → Option V

def Map.empty {V : Type} : Map V := fun _ => none

def Map.set {V : Type} (m : Map V) (k : Nat) (v : V) : Map V :=
  fun k' => if k' = k then some v else m k'

def Map.del {V : Type} (m : Map V) (k : Nat) : Map V :=
  fun k' => if k' = k then none else m k'

def Map.get {V : Type} (m : Map V) (k : Nat) : Option V := m k

theorem Map.get_set {V : Type} (m : Map V) (k : Nat) (v : V) :
    (m.set k v).get k = some v := by
  simp [Map.get, Map.set]

theorem Map.set_set {V : Type} (m : Map V) (k : Nat) (v w : V) :
    (m.set k v).set k w = m.set k w := by
  funext k'
  by_cases h : k' = k <;> simp [Map.set, h]

/-! ### SecurityManager (src/utils/security.py)

`encrypt_data` / `decrypt_data` wrap Fernet authenticated symmetric
encryption.  Fernet is modelled ideally: a ciphertext token records the
nonce and the plaintext payload together with an authentication tag that
is an injective function of (key, nonce, payload) — the model of an
unforgeable HMAC.  `decrypt_data` recomputes the tag under the supplied
key and fails (Fernet raises, re-raised by the `except` clause; the spec
names this `IntegrityError`) whenever the tag does not match. -/

def encodeChars : List Char → Nat
  | [] => 0
  | c :: cs => Nat.pair c.toNat (encodeChars cs) + 1

def encodeString (s : String) : Nat :=
  encodeChars s.data

def fernetTag (key nonce : Nat) (payload : String) : Nat :=
  Nat.pair key (Nat.pair nonce (encodeString payload))

structure FernetToken where
  nonce : Nat
  payload : String
  tag : Nat
deriving DecidableEq, Repr

structure EncryptResult where
  encrypted_data : FernetToken
  encryption_key : Nat
deriving DecidableEq, Repr

/-- `SecurityManager.encrypt_data(data, key=None)`: uses the provided key
or a freshly generated one (`Fernet.generate_key()`), encrypts, and
returns both the token and the key that was used. -/
def encrypt_data (data : String) (key : Option Nat) (freshKey nonce : Nat) :
    EncryptResult :=
  let encryption_key := key.getD freshKey
  { encrypted_data :=
      { nonce := nonce
        payload := data
        tag := fernetTag encryption_key nonce data }
    encryption_key := encryption_key }

/-- `SecurityManager.decrypt_data(encrypted_data, encryption_key)`:
authenticated decryption; a wrong key or a tampered token makes the tag
check fail and the call raises (spec: `IntegrityError`). -/
def decrypt_data (tok : FernetToken) (key : Nat) : Except String String :=
  if tok.tag = fernetTag key tok.nonce tok.payload then
    Except.ok tok.payload
  else
    Except.error "IntegrityError"

/-! ### InstagramService.validate_username (src/services/instagram_service.py)

Regex `^[a-zA-Z0-9._]+$` (so non-empty and every character alphanumeric,
dot or underscore), then length between 3 and 30 inclusive. -/

def usernameChar (c : Char) : Bool :=
  c.isAlphanum || c == '.' || c == '_'

def validate_username (username : String) : Bool :=
  if !(username.length != 0 && username.data.all usernameChar) then
    false
  else if username.length < 3 || username.length > 30 then
    false
  else
    true

/-! ### Database records (src/database/models.py, as used by the services)

`InstagramCredential` rows store the Fernet token of the encrypted
password (the empty placeholder `''` used at creation is `none`).
`UserService.block_user` / `is_user_blocked` read and write `is_blocked`
and `block_until`, and the auth handler reads `is_registered`; these are
per-user attributes of the user row. -/

structure Credential where
  encrypted_username : Option FernetToken
  encrypted_password : Option FernetToken
deriving DecidableEq, Repr

structure UserRec where
  instagram_username : Option String
  is_authenticated : Bool
  is_registered : Bool
  is_blocked : Bool
  block_until : Option Nat
  last_login : Option Nat
  credential : Option Credential
deriving DecidableEq, Repr

/-! ### UserService (src/services/user_service.py) -/

/-- `self.block_duration = timedelta(minutes=30)`, in seconds. -/
def block_duration : Nat := 30 * 60

/-- `UserService.block_user(telegram_id, duration=None)`: sets
`is_blocked = True` and `block_until = utcnow() + (duration or 30 min)`;
returns `False` when the user row does not exist. -/
def block_user (db : Map UserRec) (telegram_id : Nat) (now : Nat)
    (duration : Option Nat) : Map UserRec × Bool :=
  match db.get telegram_id with
  | none => (db, false)
  | some u =>
    (db.set telegram_id
      { u with is_blocked := true
               block_until := some (now + duration.getD block_duration) },
     true)

/-- `UserService.is_user_blocked(telegram_id)`: `False` when the user row
is missing or `is_blocked` is unset; when `block_until` lies strictly in
the past the block is lazily cleared (committed) and the answer is
`False`; otherwise the stored `is_blocked` flag is returned. -/
def is_user_blocked (db : Map UserRec) (telegram_id : Nat) (now : Nat) :
    Map UserRec × Bool :=
  match db.get telegram_id with
  | none => (db, false)
  | some u =>
    if !u.is_blocked then (db, false)
    else
      match u.block_until with
      | some bu =>
        if bu < now then
          (db.set telegram_id { u with is_blocked := false, block_until := none },
           false)
        else (db, u.is_blocked)
      | none => (db, u.is_blocked)

/-- `UserService.update_instagram_credentials(telegram_id, username)` as
called from the login flow (no encrypted arguments): records the
Instagram username, marks the user authenticated, stamps `last_login`,
and creates an empty credential row when none exists. -/
def update_instagram_credentials (db : Map UserRec) (telegram_id : Nat)
    (username : String) (now : Nat) : Map UserRec × Bool :=
  match db.get telegram_id with
  | none => (db, false)
  | some u =>
    let credential :=
      match u.credential with
      | some c => some c
      | none => some { encrypted_username := none, encrypted_password := none }
    (db.set telegram_id
      { u with instagram_username := some username
               is_authenticated := true
               last_login := some now
               credential := credential },
     true)

/-- `UserService.update_instagram_password(telegram_id, new_password)`:
requires both the user row and its credential row; encrypts the new
password with `security_manager.encrypt_data` (no key argument, so a
fresh Fernet key is generated and only the token is stored) and writes
the token into `encrypted_password`.  No length check is performed. -/
def update_instagram_password (db : Map UserRec) (telegram_id : Nat)
    (new_password : String) (freshKey nonce : Nat) : Map UserRec × Bool :=
  match db.get telegram_id with
  | none => (db, false)
  | some u =>
    match u.credential with
    | none => (db, false)
    | some cred =>
      let encrypted_password := encrypt_data new_password none freshKey nonce
      let cred' :=
        { cred with encrypted_password := some encrypted_password.encrypted_data }
      (db.set telegram_id { u with credential := some cred' }, true)

/-- Modelled from the spec: `UserService.complete_registration` is called
by `AuthHandler.handle_registration_flow` but has no definition anywhere
in the source tree; per the spec the user store persists the confirmed
username (`set_instagram_identity(user_id, name)`), completing the
registration. -/
def complete_registration (db : Map UserRec) (telegram_id : Nat)
    (instagram_username : String) : Map UserRec × Bool :=
  match db.get telegram_id with
  | none => (db, false)
  | some u =>
    (db.set telegram_id
      { u with instagram_username := some instagram_username
               is_registered := true },
     true)

/-! ### Reset tokens

`UserService.save_reset_token` and `UserService.verify_reset_token` are
called by `AuthHandler` but have no definition anywhere in the source
tree; both are modelled from the spec. -/

structure ResetToken where
  token : String
  expires_at : Nat
  consumed : Bool
deriving DecidableEq, Repr

/-- Modelled from the spec: `UserService.save_reset_token` is absent from
the source; the spec has the service persist a fresh single-use token
that expires 15 minutes after issuance. -/
def save_reset_token (tokens : Map ResetToken) (telegram_id : Nat)
    (reset_token : String) (now : Nat) : Map ResetToken :=
  tokens.set telegram_id
    { token := reset_token, expires_at := now + 15 * 60, consumed := false }

/-- Modelled from the spec: `UserService.verify_reset_token` is absent
from the source; the spec accepts a reply exactly when it equals the
stored token, the token is not consumed, and `now <= expires_at`, and
marks the token consumed on acceptance (single use). -/
def verify_reset_token (tokens : Map ResetToken) (telegram_id : Nat)
    (reply : String) (now : Nat) : Map ResetToken × Bool :=
  match tokens.get telegram_id with
  | none => (tokens, false)
  | some t =>
    if t.token = reply ∧ t.consumed = false ∧ now ≤ t.expires_at then
      (tokens.set telegram_id { t with consumed := true }, true)
    else
      (tokens, false)

/-! ### Conversation state (AuthHandler.auth_states)

`self.auth_states` is a dict keyed by the Telegram user id; each value is
a dict with a `stage` string, an `attempts` counter, and the collected
`username` / `instagram_username`.  A missing key behaves as the empty
dict (`.get(user.id, {})`), whose `stage` is the empty string here. -/

structure AuthState where
  stage : String
  attempts : Nat
  username : Option String
  instagram_username : Option String
deriving DecidableEq, Repr

def AuthState.empty : AuthState :=
  { stage := "", attempts := 0, username := none, instagram_username := none }

/-- The combined mutable state the handlers touch: the in-memory
conversation dict, the user table, and the reset-token store. -/
structure Sys where
  auth_states : Map AuthState
  db : Map UserRec
  tokens : Map ResetToken

/-- External collaborators and randomness, passed in explicitly:
the Instagram profile-existence check and the actual Instagram login are
network calls; `reset_token` stands for
`security_manager.generate_reset_token()` (absent from the source,
modelled as an externally supplied random string per the spec); the
fresh Fernet key and nonce feed `encrypt_data`. -/
structure Env where
  check_profile_exists : String → Bool
  attempt_login : String → String → Bool
  reset_token : String
  freshKey : Nat
  nonce : Nat

/-- Result of one handler invocation: the new system state, whether
`instagram_service.login` (the account-provider login attempt) was
invoked, and the texts replied to the user. -/
structure StepOut where
  sys : Sys
  called_attempt_login : Bool
  replies : List String

/-- `InstagramService.login(username, password)`: the decisive network
call `self.loader.login` is the oracle `env.attempt_login`; on success
the method also saves the freshly encrypted credentials into rows keyed
by the Instagram username via `_save_credentials` (rows that no flow
reads back — the login flow separately persists through
`update_instagram_credentials`), and returns `True`; any exception makes
it return `False`. -/
def instagram_login (env : Env) (username password : String) : Bool :=
  env.attempt_login username password

/-! ### AuthHandler (src/handlers/auth_handler.py) -/

/-- `AuthHandler.login`: rejects unregistered users, otherwise replies
with the username prompt and overwrites `auth_states[user.id]` with a
fresh login state at stage `username` and 0 attempts. -/
def login_begin (sys : Sys) (uid : Nat) : StepOut :=
  match sys.db.get uid with
  | none =>
    { sys := sys, called_attempt_login := false,
      replies := ["Please register first using /register"] }
  | some u =>
    if !u.is_registered then
      { sys := sys, called_attempt_login := false,
        replies := ["Please register first using /register"] }
    else
      { sys := { sys with
          auth_states := sys.auth_states.set uid
            { stage := "username", attempts := 0,
              username := none, instagram_username := none } }
        called_attempt_login := false
        replies := ["Enter your Instagram username:"] }

/-- `AuthHandler.handle_registration_flow`. -/
def handle_registration_flow (env : Env) (sys : Sys) (uid : Nat)
    (text : String) : StepOut :=
  let state := (sys.auth_states.get uid).getD AuthState.empty
  if state.stage = "instagram_username" then
    if !validate_username text then
      { sys := sys, called_attempt_login := false,
        replies := ["Invalid Instagram username. Please try again:"] }
    else if !env.check_profile_exists text then
      { sys := sys, called_attempt_login := false,
        replies := ["This Instagram profile does not exist. Please check and try again:"] }
    else
      let st' := { state with stage := "confirm_username",
                              instagram_username := some text }
      { sys := { sys with auth_states := sys.auth_states.set uid st' }
        called_attempt_login := false
        replies := ["Confirm Instagram username: " ++ text ++ "? (Yes/No)"] }
  else if state.stage = "confirm_username" then
    if text.toLower = "yes" then
      let db' := (complete_registration sys.db uid
        (state.instagram_username.getD "")).1
      { sys := { sys with db := db', auth_states := sys.auth_states.del uid }
        called_attempt_login := false
        replies := ["🎉 Registration successful! You can now use the bot's Instagram features."] }
    else
      { sys := { sys with auth_states := sys.auth_states.del uid }
        called_attempt_login := false
        replies := ["Registration cancelled. Please start again."] }
  else
    { sys := sys, called_attempt_login := false, replies := [] }

/-- `AuthHandler.handle_login_flow`.  Note that the `password` branch
invokes `instagram_service.login` directly — there is no consultation of
`is_user_blocked` anywhere in this handler. -/
def handle_login_flow (env : Env) (sys : Sys) (now : Nat) (uid : Nat)
    (text : String) : StepOut :=
  let state := (sys.auth_states.get uid).getD AuthState.empty
  if state.stage = "username" then
    if !validate_username text then
      { sys := sys, called_attempt_login := false,
        replies := ["Invalid username. Please try again:"] }
    else
      let st' := { state with stage := "password", username := some text }
      { sys := { sys with auth_states := sys.auth_states.set uid st' }
        called_attempt_login := false
        replies := ["Enter your Instagram password:"] }
  else if state.stage = "password" then
    let username := state.username.getD ""
    if instagram_login env username text then
      let db' := (update_instagram_credentials sys.db uid username now).1
      { sys := { sys with db := db', auth_states := sys.auth_states.del uid }
        called_attempt_login := true
        replies := ["🎉 Login successful! You can now use Instagram features."] }
    else
      let attempts := state.attempts + 1
      if attempts ≥ 3 then
        let db' := (block_user sys.db uid now none).1
        { sys := { sys with db := db', auth_states := sys.auth_states.del uid }
          called_attempt_login := true
          replies := ["🚫 Too many failed login attempts. Your account has been temporarily blocked."] }
      else
        { sys := { sys with
            auth_states := sys.auth_states.set uid
              { state with attempts := attempts } }
          called_attempt_login := true
          replies := ["Login failed. Attempt " ++ toString attempts ++ "/3. Please try again:"] }
  else
    { sys := sys, called_attempt_login := false, replies := [] }

/-- `AuthHandler.reset_password`: rejects unregistered users, otherwise
issues a reset token (via the spec-modelled `save_reset_token`, expiry
15 minutes), displays it, and sets the state to stage `reset_token`. -/
def reset_password_begin (env : Env) (sys : Sys) (now : Nat) (uid : Nat) :
    StepOut :=
  match sys.db.get uid with
  | none =>
    { sys := sys, called_attempt_login := false,
      replies := ["Please register first using /register"] }
  | some u =>
    if !u.is_registered then
      { sys := sys, called_attempt_login := false,
        replies := ["Please register first using /register"] }
    else
      let tokens' := save_reset_token sys.tokens uid env.reset_token now
      { sys := { sys with
          tokens := tokens'
          auth_states := sys.auth_states.set uid
            { stage := "reset_token", attempts := 0,
              username := none, instagram_username := none } }
        called_attempt_login := false
        replies := ["🔐 Password Reset: token " ++ env.reset_token
          ++ " expires in 15 minutes."] }

/-- `AuthHandler.handle_password_reset_flow`.  The `new_password` branch
passes the reply straight to `update_instagram_password` — no length (or
any other) validation — then replies success and deletes the state
whatever the update returned. -/
def handle_password_reset_flow (env : Env) (sys : Sys) (now : Nat)
    (uid : Nat) (text : String) : StepOut :=
  let state := (sys.auth_states.get uid).getD AuthState.empty
  if state.stage = "reset_token" then
    let vr := verify_reset_token sys.tokens uid text now
    if vr.2 then
      { sys := { sys with
          tokens := vr.1
          auth_states := sys.auth_states.set uid
            { state with stage := "new_password" } }
        called_attempt_login := false
        replies := ["Enter your new Instagram password:"] }
    else
      { sys := { sys with tokens := vr.1 }
        called_attempt_login := false
        replies := ["Invalid or expired reset token. Please try again."] }
  else if state.stage = "new_password" then
    let db' := (update_instagram_password sys.db uid text env.freshKey env.nonce).1
    { sys := { sys with db := db', auth_states := sys.auth_states.del uid }
      called_attempt_login := false
      replies := ["🎉 Password reset successful! You can now login with your new password."] }
  else
    { sys := sys, called_attempt_login := false, replies := [] }

/-! ### Message dispatcher (src/main.py, InstagramTelegramBot._handle_message_flow)

Routing is by Python substring membership (`'...' in stage`), tried in
order: `'instagram_username'` → registration flow, `'username'` → login
flow, `'reset_token'` → reset flow; a falsy (missing/empty) stage or one
matching none of the three is ignored. -/

def charsPrefix (needle hay : List Char) : Bool :=
  match needle, hay with
  | [], _ => true
  | _ :: _, [] => false
  | c :: cs, d :: ds => c == d && charsPrefix cs ds

def charsContain (needle : List Char) : List Char → Bool
  | [] => charsPrefix needle []
  | d :: ds => charsPrefix needle (d :: ds) || charsContain needle ds

def strIn (needle hay : String) : Bool :=
  charsContain needle.data hay.data

inductive Route where
  | registration
  | login
  | reset
  | dropped
deriving DecidableEq, Repr

def route_of (stage : String) : Route :=
  if stage = "" then Route.dropped
  else if strIn "instagram_username" stage then Route.registration
  else if strIn "username" stage then Route.login
  else if strIn "reset_token" stage then Route.reset
  else Route.dropped

def handle_message_flow (env : Env) (sys : Sys) (now : Nat) (uid : Nat)
    (text : String) : StepOut :=
  let stage := ((sys.auth_states.get uid).getD AuthState.empty).stage
  match route_of stage with
  | Route.registration => handle_registration_flow env sys uid text
  | Route.login => handle_login_flow env sys now uid text
  | Route.reset => handle_password_reset_flow env sys now uid text
  | Route.dropped =>
    { sys := sys, called_attempt_login := false, replies := [] }

/-! ### Helper lemmas -/

theorem char_toNat_inj {a b : Char} (h : a.toNat = b.toNat) : a = b :=
  Char.eq_of_val_eq (UInt32.ext h)

theorem encodeChars_injective :
    ∀ {l1 l2 : List Char}, encodeChars l1 = encodeChars l2 → l1 = l2
  | [], [], _ => rfl
  | [], _ :: _, h => by simp [encodeChars] at h
  | _ :: _, [], h => by simp [encodeChars] at h
  | c :: cs, d :: ds, h => by
    simp only [encodeChars, Nat.add_right_cancel_iff] at h
    obtain ⟨h1, h2⟩ := Nat.pair_eq_pair.mp h
    rw [char_toNat_inj h1, encodeChars_injective h2]

theorem encodeString_injective {s t : String}
    (h : encodeString s = encodeString t) : s = t := by
  cases s; cases t
  exact congrArg String.mk (encodeChars_injective h)

/-! ### Claim theorems -/

/-- C3: for every plaintext `p` (including the empty string) and every
valid key (an explicitly supplied key, or the freshly generated one when
`encrypt_data` is called without a key), encrypting `p` and then
decrypting the resulting token under the key the encryption used returns
exactly `p`. -/
theorem encrypt_then_decrypt_roundtrip (p : String) (key : Option Nat)
    (freshKey nonce : Nat) :
    decrypt_data (encrypt_data p key freshKey nonce).encrypted_data
        (encrypt_data p key freshKey nonce).encryption_key
      = Except.ok p := by
  simp [encrypt_data, decrypt_data]

/-- C6: a token encrypted under key `k` fails to decrypt with
`IntegrityError` under every key `k2 ≠ k`, and likewise every tampered
token (same authentication tag, altered payload) fails to decrypt even
under the original key `k`. -/
theorem decrypt_wrong_key_integrity_error (p : String)
    (k k2 freshKey nonce : Nat) (h : k2 ≠ k) :
    decrypt_data (encrypt_data p (some k) freshKey nonce).encrypted_data k2
        = Except.error "IntegrityError" ∧
    ∀ t : FernetToken,
      t.tag = (encrypt_data p (some k) freshKey nonce).encrypted_data.tag →
      t.payload ≠ p →
      decrypt_data t k = Except.error "IntegrityError" := by
  constructor
  · simp only [encrypt_data, decrypt_data, Option.getD]
    rw [if_neg]
    intro hc
    exact h (Nat.pair_eq_pair.mp hc).1.symm
  · intro t htag hpayload
    simp only [encrypt_data, decrypt_data, Option.getD] at htag ⊢
    rw [if_neg]
    intro hc
    rw [htag] at hc
    obtain ⟨-, h2⟩ := Nat.pair_eq_pair.mp hc
    obtain ⟨-, h3⟩ := Nat.pair_eq_pair.mp h2
    exact hpayload (encodeString_injective h3.symm)

/-- Witness for C6 at a concrete input: key 2 differs from the
encryption key 1, and decryption under key 2 reports the integrity
failure. -/
theorem decrypt_wrong_key_integrity_error_witness :
    (2 : Nat) ≠ 1 ∧
    decrypt_data (encrypt_data "ab" (some 1) 3 4).encrypted_data 2
      = Except.error "IntegrityError" :=
  ⟨by decide, (decrypt_wrong_key_integrity_error "ab" 1 2 3 4 (by decide)).1⟩

/-! ### Lemmas about single login-flow steps and blocking -/

theorem handle_login_flow_fail_lt
    (env : Env) (sys : Sys) (now uid : Nat) (st : AuthState) (text : String)
    (hst : sys.auth_states.get uid = some st)
    (hstage : st.stage = "password")
    (hfail : env.attempt_login (st.username.getD "") text = false)
    (hlt : st.attempts + 1 < 3) :
    handle_login_flow env sys now uid text =
      { sys := { sys with
          auth_states := sys.auth_states.set uid
            { st with attempts := st.attempts + 1 } }
        called_attempt_login := true
        replies := ["Login failed. Attempt " ++ toString (st.attempts + 1)
          ++ "/3. Please try again:"] } := by
  have h3 : ¬ (2 ≤ st.attempts) := by omega
  simp only [handle_login_flow, hst, Option.getD_some, hstage, instagram_login, hfail]
  simp [h3]

theorem handle_login_flow_fail_block
    (env : Env) (sys : Sys) (now uid : Nat) (st : AuthState) (text : String)
    (hst : sys.auth_states.get uid = some st)
    (hstage : st.stage = "password")
    (hfail : env.attempt_login (st.username.getD "") text = false)
    (hge : 3 ≤ st.attempts + 1) :
    handle_login_flow env sys now uid text =
      { sys := { sys with
          db := (block_user sys.db uid now none).1
          auth_states := sys.auth_states.del uid }
        called_attempt_login := true
        replies := ["🚫 Too many failed login attempts. Your account has been temporarily blocked."] } := by
  have h3 : 2 ≤ st.attempts := by omega
  simp only [handle_login_flow, hst, Option.getD_some, hstage, instagram_login, hfail]
  simp [h3]

theorem is_user_blocked_of_unblocked (db : Map UserRec) (uid now : Nat)
    (u : UserRec) (hdb : db.get uid = some u) (hnb : u.is_blocked = false) :
    (is_user_blocked db uid now).2 = false := by
  simp [is_user_blocked, hdb, hnb]

theorem block_user_sets (db : Map UserRec) (uid now : Nat) (u : UserRec)
    (hdb : db.get uid = some u) :
    (block_user db uid now none).1 =
      db.set uid { u with is_blocked := true
                          block_until := some (now + block_duration) } := by
  simp [block_user, hdb]

theorem is_user_blocked_after_block (db : Map UserRec) (uid now t : Nat)
    (u : UserRec) (hdb : db.get uid = some u) :
    (t ≤ now + block_duration →
      (is_user_blocked (block_user db uid now none).1 uid t).2 = true) ∧
    (now + block_duration < t →
      (is_user_blocked (block_user db uid now none).1 uid t).2 = false) := by
  rw [block_user_sets db uid now u hdb]
  constructor
  · intro hle
    have hnlt : ¬ (now + block_duration < t) := by omega
    simp [is_user_blocked, Map.get_set, hnlt]
  · intro hlt
    simp [is_user_blocked, Map.get_set, hlt]

/-- C1: starting from an unblocked user whose login conversation is at
the password stage with 0 attempts, each failed password reply
increments the attempt counter, the user is not blocked after the first
two failures, is blocked exactly after the third (the state being
deleted), and once `block_until` (30 minutes) has elapsed
`is_user_blocked` reports `false` again with no explicit unblock call. -/
theorem three_failed_logins_block_then_expire
    (env : Env) (sys : Sys) (now uid later : Nat) (u : UserRec)
    (un : String) (ig : Option String) (t1 t2 t3 : String)
    (hdb : sys.db.get uid = some u)
    (hnb : u.is_blocked = false)
    (hst : sys.auth_states.get uid = some ⟨"password", 0, some un, ig⟩)
    (hf1 : env.attempt_login un t1 = false)
    (hf2 : env.attempt_login un t2 = false)
    (hf3 : env.attempt_login un t3 = false)
    (hlater : now + block_duration < later) :
    let o1 := handle_login_flow env sys now uid t1
    let o2 := handle_login_flow env o1.sys now uid t2
    let o3 := handle_login_flow env o2.sys now uid t3
    o1.sys.auth_states.get uid = some ⟨"password", 1, some un, ig⟩ ∧
    (is_user_blocked o1.sys.db uid now).2 = false ∧
    o2.sys.auth_states.get uid = some ⟨"password", 2, some un, ig⟩ ∧
    (is_user_blocked o2.sys.db uid now).2 = false ∧
    o3.sys.auth_states.get uid = none ∧
    (is_user_blocked o3.sys.db uid now).2 = true ∧
    (is_user_blocked o3.sys.db uid later).2 = false := by
  have e1 := handle_login_flow_fail_lt env sys now uid
    ⟨"password", 0, some un, ig⟩ t1 hst rfl hf1 (by omega : (0:Nat) + 1 < 3)
  have hst1 : (sys.auth_states.set uid ⟨"password", 1, some un, ig⟩).get uid
      = some ⟨"password", 1, some un, ig⟩ := Map.get_set _ _ _
  have e2 := handle_login_flow_fail_lt env
    { sys with auth_states := sys.auth_states.set uid ⟨"password", 1, some un, ig⟩ }
    now uid ⟨"password", 1, some un, ig⟩ t2 hst1 rfl hf2 (by omega : (1:Nat) + 1 < 3)
  have hst2 : ((sys.auth_states.set uid ⟨"password", 1, some un, ig⟩).set uid
      ⟨"password", 2, some un, ig⟩).get uid
      = some ⟨"password", 2, some un, ig⟩ := Map.get_set _ _ _
  have e3 := handle_login_flow_fail_block env
    { sys with auth_states := (sys.auth_states.set uid
        ⟨"password", 1, some un, ig⟩).set uid ⟨"password", 2, some un, ig⟩ }
    now uid ⟨"password", 2, some un, ig⟩ t3 hst2 rfl hf3 (by omega : (3:Nat) ≤ 2 + 1)
  have hblk := is_user_blocked_after_block sys.db uid now now u hdb
  have hexp := is_user_blocked_after_block sys.db uid now later u hdb
  simp only [e1, e2, e3]
  refine ⟨Map.get_set _ _ _, ?_, Map.get_set _ _ _, ?_, ?_, ?_, ?_⟩
  · exact is_user_blocked_of_unblocked sys.db uid now u hdb hnb
  · exact is_user_blocked_of_unblocked sys.db uid now u hdb hnb
  · simp [Map.get, Map.del]
  · exact hblk.1 (Nat.le_add_right _ _)
  · exact hexp.2 hlater

/-- Witness for C1 at a concrete input: user 7 is registered and
unblocked, the login conversation is at the password stage, and the
login oracle rejects every attempt; the attempt counter climbs to 2,
the third failure blocks, and the block has expired 1801 seconds after
`now = 100`. -/
theorem three_failed_logins_block_then_expire_witness :
    let u : UserRec :=
      { instagram_username := some "alice", is_authenticated := false,
        is_registered := true, is_blocked := false, block_until := none,
        last_login := none, credential := none }
    let sys : Sys :=
      { auth_states := Map.empty.set 7 ⟨"password", 0, some "alice", none⟩
        db := Map.empty.set 7 u
        tokens := Map.empty }
    let env : Env :=
      { check_profile_exists := fun _ => true
        attempt_login := fun _ _ => false
        reset_token := "T", freshKey := 1, nonce := 2 }
    let o1 := handle_login_flow env sys 100 7 "w1"
    let o2 := handle_login_flow env o1.sys 100 7 "w2"
    let o3 := handle_login_flow env o2.sys 100 7 "w3"
    o1.sys.auth_states.get 7 = some ⟨"password", 1, some "alice", none⟩ ∧
    (is_user_blocked o1.sys.db 7 100).2 = false ∧
    o2.sys.auth_states.get 7 = some ⟨"password", 2, some "alice", none⟩ ∧
    (is_user_blocked o2.sys.db 7 100).2 = false ∧
    o3.sys.auth_states.get 7 = none ∧
    (is_user_blocked o3.sys.db 7 100).2 = true ∧
    (is_user_blocked o3.sys.db 7 (100 + block_duration + 1)).2 = false :=
  three_failed_logins_block_then_expire _ _ 100 7 (100 + block_duration + 1)
    _ "alice" none "w1" "w2" "w3" (Map.get_set _ _ _) rfl (Map.get_set _ _ _)
    rfl rfl rfl (by omega)

/-- C2 fails on the code: at time 5000 user 42 has an active block
(`block_until = 10000`), yet the password-stage reply still results in a
call to `instagram_service.login` — the handler never consults the
blocking policy. -/
theorem blocked_user_password_reply_still_attempts_login :
    let u : UserRec :=
      { instagram_username := some "alice", is_authenticated := false,
        is_registered := true, is_blocked := true, block_until := some 10000,
        last_login := none, credential := none }
    let sys : Sys :=
      { auth_states := Map.empty.set 42 ⟨"password", 0, some "alice", none⟩
        db := Map.empty.set 42 u
        tokens := Map.empty }
    let env : Env :=
      { check_profile_exists := fun _ => true
        attempt_login := fun _ _ => false
        reset_token := "T", freshKey := 1, nonce := 2 }
    (is_user_blocked sys.db 42 5000).2 = true ∧
    (handle_login_flow env sys 5000 42 "pw").called_attempt_login = true :=
  ⟨rfl, rfl⟩

/-- C2 amended: the login flow's password stage consults no blocking
policy at all — whatever the user's block state, a reply at the password
stage invokes `instagram_service.login` (the account-provider's login
attempt); no remaining-cool-down reply is produced and no state deletion
happens on account of a block. -/
theorem password_stage_always_attempts_login
    (env : Env) (sys : Sys) (now uid : Nat) (st : AuthState) (text : String)
    (hst : sys.auth_states.get uid = some st)
    (hstage : st.stage = "password") :
    (handle_login_flow env sys now uid text).called_attempt_login = true := by
  simp only [handle_login_flow, hst, Option.getD_some, hstage, instagram_login]
  by_cases h1 : env.attempt_login (st.username.getD "") text = true
  · simp [h1]
  · simp only [Bool.not_eq_true] at h1
    by_cases h2 : 2 ≤ st.attempts
    · simp [h1, h2]
    · simp [h1, h2]

/-- Witness for C2's amended theorem: a currently blocked user at the
password stage still triggers the login attempt. -/
theorem password_stage_always_attempts_login_witness :
    let u : UserRec :=
      { instagram_username := some "alice", is_authenticated := false,
        is_registered := true, is_blocked := true, block_until := some 10000,
        last_login := none, credential := none }
    let sys : Sys :=
      { auth_states := Map.empty.set 42 ⟨"password", 0, some "alice", none⟩
        db := Map.empty.set 42 u
        tokens := Map.empty }
    let env : Env :=
      { check_profile_exists := fun _ => true
        attempt_login := fun _ _ => false
        reset_token := "T", freshKey := 1, nonce := 2 }
    (handle_login_flow env sys 5000 42 "pw").called_attempt_login = true :=
  password_stage_always_attempts_login _ _ 5000 42
    ⟨"password", 0, some "alice", none⟩ "pw" (Map.get_set _ _ _) rfl

/-- C8: an input rejected by `validate_username` at an
`awaiting_username` stage (registration stage `instagram_username`, or
login stage `username`) leaves the entire system state unchanged — the
stage does not advance and the attempts counter is untouched — and only
re-prompts. -/
theorem invalid_username_rejected_no_state_change
    (env : Env) (sys : Sys) (now uid : Nat) (st : AuthState) (text : String)
    (hv : validate_username text = false)
    (hst : sys.auth_states.get uid = some st) :
    (st.stage = "instagram_username" →
      handle_registration_flow env sys uid text
        = { sys := sys, called_attempt_login := false,
            replies := ["Invalid Instagram username. Please try again:"] }) ∧
    (st.stage = "username" →
      handle_login_flow env sys now uid text
        = { sys := sys, called_attempt_login := false,
            replies := ["Invalid username. Please try again:"] }) := by
  constructor
  · intro h
    simp [handle_registration_flow, hst, h, hv]
  · intro h
    simp [handle_login_flow, hst, h, hv]

/-- Witness for C8: "ab" (too short) is rejected and the registration
flow of user 3 replies the re-prompt leaving everything unchanged. -/
theorem invalid_username_rejected_no_state_change_witness :
    let sys : Sys :=
      { auth_states := Map.empty.set 3 ⟨"instagram_username", 0, none, none⟩
        db := Map.empty
        tokens := Map.empty }
    let env : Env :=
      { check_profile_exists := fun _ => true
        attempt_login := fun _ _ => false
        reset_token := "T", freshKey := 1, nonce := 2 }
    validate_username "ab" = false ∧
    handle_registration_flow env sys 3 "ab"
      = { sys := sys, called_attempt_login := false,
          replies := ["Invalid Instagram username. Please try again:"] } :=
  ⟨by decide,
    (invalid_username_rejected_no_state_change _ _ 0 3
      ⟨"instagram_username", 0, none, none⟩ "ab" (by decide)
      (Map.get_set _ _ _)).1 rfl⟩

/-- C10: when the pending auth state is at stage `password` (login flow)
or `new_password` (reset flow), the dispatcher's substring routing
(`'instagram_username' in stage`, `'username' in stage`,
`'reset_token' in stage`) matches none of the three flow handlers, so
the inbound message is dropped: no reply, no state change, no store
change, no login attempt. -/
theorem password_stage_messages_dropped
    (env : Env) (sys : Sys) (now uid : Nat) (st : AuthState) (text : String)
    (hst : sys.auth_states.get uid = some st)
    (hstage : st.stage = "password" ∨ st.stage = "new_password") :
    handle_message_flow env sys now uid text
      = { sys := sys, called_attempt_login := false, replies := [] } := by
  have hp : route_of "password" = Route.dropped := by decide
  have hnp : route_of "new_password" = Route.dropped := by decide
  rcases hstage with h | h <;> simp [handle_message_flow, hst, h, hp, hnp]

/-- Witness for C10: user 9's login conversation awaits the password;
an inbound text is routed to no handler and everything is unchanged. -/
theorem password_stage_messages_dropped_witness :
    let sys : Sys :=
      { auth_states := Map.empty.set 9 ⟨"password", 1, some "alice", none⟩
        db := Map.empty
        tokens := Map.empty }
    let env : Env :=
      { check_profile_exists := fun _ => true
        attempt_login := fun _ _ => false
        reset_token := "T", freshKey := 1, nonce := 2 }
    handle_message_flow env sys 50 9 "hunter2"
      = { sys := sys, called_attempt_login := false, replies := [] } :=
  password_stage_messages_dropped _ _ 50 9 ⟨"password", 1, some "alice", none⟩
    "hunter2" (Map.get_set _ _ _) (Or.inl rfl)

/-- C9: for a registered user, a second `begin_login` in a row overwrites
the first ConversationState with a fresh one at the initial stage
(`username`, 0 attempts): double begin equals single begin on every
component of the system state, the dictionary holds the fresh state, and
a subsequent reply is never interpreted as the discarded flow's pending
password (no login attempt fires). -/
theorem begin_login_twice_overwrites
    (env : Env) (sys : Sys) (now uid : Nat) (u : UserRec) (text : String)
    (hdb : sys.db.get uid = some u)
    (hreg : u.is_registered = true) :
    let once := (login_begin sys uid).sys
    let twice := (login_begin once uid).sys
    (twice.auth_states = once.auth_states ∧ twice.db = once.db ∧
      twice.tokens = once.tokens) ∧
    twice.auth_states.get uid = some ⟨"username", 0, none, none⟩ ∧
    (handle_login_flow env twice now uid text).called_attempt_login = false := by
  have e1 : (login_begin sys uid).sys
      = { sys with auth_states := (sys.auth_states.set uid ⟨"username", 0, none, none⟩) } := by
    simp [login_begin, hdb, hreg]
  have e2 : (login_begin
        { sys with auth_states := (sys.auth_states.set uid ⟨"username", 0, none, none⟩) } uid).sys
      = { sys with auth_states :=
            ((sys.auth_states.set uid ⟨"username", 0, none, none⟩).set uid ⟨"username", 0, none, none⟩) } := by
    simp [login_begin, hdb, hreg]
  have hst : ((sys.auth_states.set uid ⟨"username", 0, none, none⟩).set uid
      ⟨"username", 0, none, none⟩).get uid
      = some ⟨"username", 0, none, none⟩ := Map.get_set _ _ _
  refine ⟨⟨?_, ?_, ?_⟩, ?_, ?_⟩
  · simp only [e1, e2, Map.set_set]
  · simp only [e1, e2]
  · simp only [e1, e2]
  · simp only [e1, e2, hst]
  · simp only [e1, e2]
    by_cases hv : validate_username text = true
    · simp [handle_login_flow, hst, hv]
    · simp only [Bool.not_eq_true] at hv
      simp [handle_login_flow, hst, hv]

/-- Witness for C9: registered user 5, two `begin_login` calls in a row,
then the reply "secretpw" (the would-be password of the discarded flow)
does not trigger a login attempt. -/
theorem begin_login_twice_overwrites_witness :
    let u : UserRec :=
      { instagram_username := some "alice", is_authenticated := false,
        is_registered := true, is_blocked := false, block_until := none,
        last_login := none, credential := none }
    let sys : Sys :=
      { auth_states := Map.empty.set 5 ⟨"password", 2, some "alice", none⟩
        db := Map.empty.set 5 u
        tokens := Map.empty }
    let env : Env :=
      { check_profile_exists := fun _ => true
        attempt_login := fun _ _ => true
        reset_token := "T", freshKey := 1, nonce := 2 }
    let once := (login_begin sys 5).sys
    let twice := (login_begin once 5).sys
    (twice.auth_states = once.auth_states ∧ twice.db = once.db ∧
      twice.tokens = once.tokens) ∧
    twice.auth_states.get 5 = some ⟨"username", 0, none, none⟩ ∧
    (handle_login_flow env twice 60 5 "secretpw").called_attempt_login = false :=
  begin_login_twice_overwrites _ _ 60 5 _ "secretpw" (Map.get_set _ _ _) rfl

/-- C4 (failing input): user 42's registration conversation is at the
confirmation stage; the dispatcher routes the reply "yes" to the
login-flow handler, because "username" is a substring of
"confirm_username" and that branch is tried before any other handler can
see the message; the login handler has no branch for this stage, so
nothing is persisted, the state is not deleted, and no reply is sent —
the confirmation branch of `handle_registration_flow` is unreachable. -/
theorem confirm_yes_reply_misrouted_and_dropped :
    let u : UserRec :=
      { instagram_username := none, is_authenticated := false,
        is_registered := false, is_blocked := false, block_until := none,
        last_login := none, credential := none }
    let sys : Sys :=
      { auth_states := Map.empty.set 42
          ⟨"confirm_username", 0, none, some "john_doe"⟩
        db := Map.empty.set 42 u
        tokens := Map.empty }
    let env : Env :=
      { check_profile_exists := fun _ => true
        attempt_login := fun _ _ => false
        reset_token := "T", freshKey := 1, nonce := 2 }
    route_of "confirm_username" = Route.login ∧
    handle_message_flow env sys 0 42 "yes"
      = { sys := sys, called_attempt_login := false, replies := [] } :=
  ⟨by decide, rfl⟩

/-- C5: at the reset-token stage a reply is accepted (the conversation
advancing to the new-password stage) exactly when the stored token equals
the reply, is not yet consumed, and the time is not past its expiry; and
acceptance consumes the token, so a second verification of the same
value afterwards is rejected at every time, even before expiry. -/
theorem reset_token_accepted_iff_and_single_use
    (env : Env) (sys : Sys) (now now2 uid : Nat) (t : ResetToken)
    (st : AuthState) (reply : String)
    (htok : sys.tokens.get uid = some t)
    (hst : sys.auth_states.get uid = some st)
    (hstage : st.stage = "reset_token") :
    ((handle_password_reset_flow env sys now uid reply).sys.auth_states.get uid
        = some { st with stage := "new_password" }
      ↔ (t.token = reply ∧ t.consumed = false ∧ now ≤ t.expires_at)) ∧
    ((t.token = reply ∧ t.consumed = false ∧ now ≤ t.expires_at) →
      (verify_reset_token
          (handle_password_reset_flow env sys now uid reply).sys.tokens
          uid reply now2).2 = false) := by
  by_cases hc : t.token = reply ∧ t.consumed = false ∧ now ≤ t.expires_at
  · have hv : verify_reset_token sys.tokens uid reply now
        = (sys.tokens.set uid { t with consumed := true }, true) := by
      simp [verify_reset_token, htok, hc]
    have hf : handle_password_reset_flow env sys now uid reply
        = { sys := { sys with
              tokens := sys.tokens.set uid { t with consumed := true }
              auth_states := sys.auth_states.set uid
                { st with stage := "new_password" } }
            called_attempt_login := false
            replies := ["Enter your new Instagram password:"] } := by
      simp [handle_password_reset_flow, hst, hstage, hv]
    rw [hf]
    refine ⟨⟨fun _ => hc, fun _ => Map.get_set _ _ _⟩, fun _ => ?_⟩
    simp [verify_reset_token, Map.get_set]
  · have hv : verify_reset_token sys.tokens uid reply now
        = (sys.tokens, false) := by
      simp only [verify_reset_token, htok]
      rw [if_neg hc]
    have hf : handle_password_reset_flow env sys now uid reply
        = { sys := { sys with tokens := sys.tokens }
            called_attempt_login := false
            replies := ["Invalid or expired reset token. Please try again."] } := by
      simp [handle_password_reset_flow, hst, hstage, hv]
    rw [hf]
    refine ⟨⟨fun h => absurd ?_ hc, fun h => absurd h hc⟩,
      fun h => absurd h hc⟩
    rw [hst] at h
    injection h with h'
    have hs : st.stage = "new_password" := by rw [h']
    rw [hstage] at hs
    exact absurd hs (by decide)

/-- Witness for C5: user 11's stored token "ABC123" expires at 900 and
is unconsumed; the reply "ABC123" at time 300 is accepted, the state
moves to the new-password stage, and a second use of the token is
rejected even at time 350, well before expiry. -/
theorem reset_token_accepted_iff_and_single_use_witness :
    let sys : Sys :=
      { auth_states := Map.empty.set 11 ⟨"reset_token", 0, none, none⟩
        db := Map.empty
        tokens := Map.empty.set 11
          { token := "ABC123", expires_at := 900, consumed := false } }
    let env : Env :=
      { check_profile_exists := fun _ => true
        attempt_login := fun _ _ => false
        reset_token := "ABC123", freshKey := 1, nonce := 2 }
    ((handle_password_reset_flow env sys 300 11 "ABC123").sys.auth_states.get 11
        = some ⟨"new_password", 0, none, none⟩
      ↔ ("ABC123" = "ABC123" ∧ false = false ∧ 300 ≤ 900)) ∧
    (("ABC123" = "ABC123" ∧ false = false ∧ 300 ≤ 900) →
      (verify_reset_token
          (handle_password_reset_flow env sys 300 11 "ABC123").sys.tokens
          11 "ABC123" 350).2 = false) :=
  reset_token_accepted_iff_and_single_use _ _ 300 350 11
    { token := "ABC123", expires_at := 900, consumed := false }
    ⟨"reset_token", 0, none, none⟩ "ABC123"
    (Map.get_set _ _ _) (Map.get_set _ _ _) rfl

/-- C7 fails on the code: the empty string — shorter than any minimum
length policy — supplied at the new-password stage of user 8's reset
flow is nevertheless encrypted and persisted into the credential row,
and the flow completes with the state deleted. -/
theorem empty_new_password_still_persisted :
    let cred : Credential :=
      { encrypted_username := none
        encrypted_password := some (encrypt_data "old" none 9 9).encrypted_data }
    let u : UserRec :=
      { instagram_username := some "alice", is_authenticated := true,
        is_registered := true, is_blocked := false, block_until := none,
        last_login := none, credential := some cred }
    let sys : Sys :=
      { auth_states := Map.empty.set 8 ⟨"new_password", 0, none, none⟩
        db := Map.empty.set 8 u
        tokens := Map.empty }
    let env : Env :=
      { check_profile_exists := fun _ => true
        attempt_login := fun _ _ => false
        reset_token := "T", freshKey := 1, nonce := 2 }
    let o := handle_password_reset_flow env sys 0 8 ""
    o.sys.db.get 8 = some { u with credential := some { cred with
        encrypted_password := some (encrypt_data "" none 1 2).encrypted_data } } ∧
    o.sys.auth_states.get 8 = none ∧
    o.replies = ["🎉 Password reset successful! You can now login with your new password."] :=
  ⟨rfl, rfl, rfl⟩

/-- C7 amended: the new-password stage enforces no minimum-length policy
at all — every supplied value, of any length including the empty string,
is encrypted and persisted whenever the user and credential rows exist,
after which the flow replies success and the state is deleted. -/
theorem new_password_any_value_persisted
    (env : Env) (sys : Sys) (now uid : Nat) (st : AuthState) (text : String)
    (u : UserRec) (cred : Credential)
    (hst : sys.auth_states.get uid = some st)
    (hstage : st.stage = "new_password")
    (hdb : sys.db.get uid = some u)
    (hcred : u.credential = some cred) :
    handle_password_reset_flow env sys now uid text =
      { sys := { sys with
          db := sys.db.set uid { u with credential := some { cred with
            encrypted_password :=
              some (encrypt_data text none env.freshKey env.nonce).encrypted_data } }
          auth_states := sys.auth_states.del uid }
        called_attempt_login := false
        replies := ["🎉 Password reset successful! You can now login with your new password."] } := by
  have hup : update_instagram_password sys.db uid text env.freshKey env.nonce
      = (sys.db.set uid { u with credential := some { cred with
          encrypted_password :=
            some (encrypt_data text none env.freshKey env.nonce).encrypted_data } },
         true) := by
    simp [update_instagram_password, hdb, hcred]
  simp [handle_password_reset_flow, hst, hstage, hup]

/-- Witness for C7's amended theorem: the one-character value "x" is
accepted, encrypted and persisted for user 8. -/
theorem new_password_any_value_persisted_witness :
    let cred : Credential :=
      { encrypted_username := none
        encrypted_password := some (encrypt_data "old" none 9 9).encrypted_data }
    let u : UserRec :=
      { instagram_username := some "alice", is_authenticated := true,
        is_registered := true, is_blocked := false, block_until := none,
        last_login := none, credential := some cred }
    let sys : Sys :=
      { auth_states := Map.empty.set 8 ⟨"new_password", 0, none, none⟩
        db := Map.empty.set 8 u
        tokens := Map.empty }
    let env : Env :=
      { check_profile_exists := fun _ => true
        attempt_login := fun _ _ => false
        reset_token := "T", freshKey := 1, nonce := 2 }
    handle_password_reset_flow env sys 0 8 "x" =
      { sys := { sys with
          db := sys.db.set 8 { u with credential := some { cred with
            encrypted_password := some (encrypt_data "x" none 1 2).encrypted_data } }
          auth_states := sys.auth_states.del 8 }
        called_attempt_login := false
        replies := ["🎉 Password reset successful! You can now login with your new password."] } :=
  new_password_any_value_persisted _ _ 0 8 ⟨"new_password", 0, none, none⟩ "x"
    _ _ (Map.get_set _ _ _) rfl (Map.get_set _ _ _) rfl

end InstagramTG
